import Mathlib

/-!
Shallow embedding of the core of the MTG Chaos RPG repository:
the game state store (`src/src/core/gameState.js`, class `GameState`),
the AI personality layer (`src/src/core/gameState.js`, class `AIService`),
and the template generator (`src/js/main.js`, class `PerchanceGenerator`).

JS numbers are modelled as `Int` where they hold integer amounts and as `Rat`
where fractional trait values are compared (all comparisons in the source are
far from binary-representation boundaries, so rational arithmetic agrees with
IEEE double arithmetic on every comparison performed).  JS `Math.random()`
driven index selection is modelled by explicit index parameters constrained to
the range the JS expression produces.  Throwing operations return `Option`.
Observer notification is modelled by the list of change events an operation
emits; `notifyObservers` delivers one call per subscribed observer per event.
-/

/-- Change events, one constructor per `notifyObservers` type tag in the
source.  `state_update` is emitted by `updateState`; the others are the typed
events emitted by the individual operations. -/
inductive Change where
  | state_update
  | game_started
  | game_loaded
  | game_saved
  | boss_encounter_started
  | encounter_started
  | boss_damaged
  | boss_defeated (victory : Bool)
  | card_added_to_hand
  | card_played
  | item_added_to_inventory
  | quest_added
  | quest_progress_updated
  | location_changed
  | settings_updated
  | game_reset
deriving DecidableEq, Repr

/-- `gameSettings` record of the state tree. -/
structure GameSettings where
  autoTapLands : Bool
  showCardPreviews : Bool
  soundVolume : Int
  difficulty : String
deriving DecidableEq, Repr

/-- A card record; only the identity and name matter to the store. -/
structure Card where
  id : String
  name : String
deriving DecidableEq, Repr

/-- Per-color mana counters of a player. -/
structure ManaPool where
  white : Int
  blue : Int
  black : Int
  red : Int
  green : Int
  colorless : Int
deriving DecidableEq, Repr

/-- Player aggregate, following the `defaultPlayer` template of the source. -/
structure Player where
  id : String
  name : String
  health : Int
  maxHealth : Int
  mana : ManaPool
  hand : List Card
  battlefield : List Card
  graveyard : List Card
  library : List Card
  abilities : List String
  experience : Int
  level : Int
deriving DecidableEq, Repr

/-- Boss record of the static catalog and of `currentBoss`. -/
structure Boss where
  id : String
  name : String
  health : Int
  maxHealth : Int
  abilities : List String
  weaknesses : List String
  resistances : List String
  difficulty : Int
  defeated : Bool
  location : String
deriving DecidableEq, Repr

/-- Encounter record stored by `startEncounter`. -/
structure Encounter where
  title : String
  difficulty : Int
deriving DecidableEq, Repr

/-- Inventory item record. -/
structure Item where
  id : String
  name : String
  itemType : String
  description : String
deriving DecidableEq, Repr

/-- Quest record as completed by `addQuest` (`id`, `status`, `progress` are
assigned on insertion). -/
structure Quest where
  id : String
  title : String
  objective : String
  rewards : List String
  status : String
  progress : Int
deriving DecidableEq, Repr

/-- The `this.state` tree of the `GameState` class. -/
structure StateTree where
  gamePhase : String
  currentTurn : Int
  players : List Player
  currentBoss : Option Boss
  currentEncounter : Option Encounter
  location : Option String
  inventory : List Item
  quests : List Quest
  defeatedBosses : List String
  gameSettings : GameSettings
deriving DecidableEq, Repr

/-- The `this.gameData` catalog of the `GameState` class. -/
structure GameData where
  bosses : List Boss
  encounters : List Encounter
  playerCards : List Card
  customContent : List String
deriving DecidableEq, Repr

/-- The full store: mutable state tree plus static catalog. -/
structure Store where
  state : StateTree
  gameData : GameData
deriving DecidableEq, Repr

/-- First catalog boss of `initializeGameData`. -/
def vorthak : Boss :=
  { id := "vorthak-destroyer", name := "Vorthak the Destroyer",
    health := 150, maxHealth := 150,
    abilities := ["Chaos Storm", "Reality Rift", "Void Manipulation"],
    weaknesses := ["white", "blue"], resistances := ["black", "red"],
    difficulty := 8, defeated := false, location := "The Chaos Nexus" }

/-- Second catalog boss of `initializeGameData`. -/
def malachar : Boss :=
  { id := "malachar-corrupted", name := "Malachar the Corrupted",
    health := 120, maxHealth := 120,
    abilities := ["Soul Drain", "Shadow Minions", "Corrupt Spells"],
    weaknesses := ["white", "green"], resistances := ["black"],
    difficulty := 6, defeated := false, location := "The Shadowlands" }

/-- Third catalog boss of `initializeGameData`. -/
def nethys : Boss :=
  { id := "nethys-ancient", name := "Nethys the Ancient",
    health := 200, maxHealth := 200,
    abilities := ["Time Manipulation", "Ancient Knowledge", "Planar Binding"],
    weaknesses := ["red", "green"], resistances := ["blue", "white"],
    difficulty := 9, defeated := false, location := "The Temporal Sanctum" }

/-- Boss catalog installed by `initializeGameData`. -/
def initialBosses : List Boss := [vorthak, malachar, nethys]

/-- The `defaultPlayer` template of `initializeGameData`. -/
def defaultPlayer : Player :=
  { id := "", name := "Player", health := 20, maxHealth := 20,
    mana := { white := 0, blue := 0, black := 0, red := 0, green := 0, colorless := 0 },
    hand := [], battlefield := [], graveyard := [], library := [],
    abilities := [], experience := 0, level := 1 }

/-- Initial `gameSettings` from the `GameState` constructor. -/
def initialSettings : GameSettings :=
  { autoTapLands := false, showCardPreviews := true, soundVolume := 50,
    difficulty := "normal" }

/-- The store right after the `GameState` constructor ran. -/
def initStore : Store :=
  { state :=
      { gamePhase := "menu", currentTurn := 0, players := [],
        currentBoss := none, currentEncounter := none, location := none,
        inventory := [], quests := [], defeatedBosses := [],
        gameSettings := initialSettings },
    gameData :=
      { bosses := initialBosses, encounters := [], playerCards := [],
        customContent := [] } }

/-- AI personality trait vector (`this.personalities` entries). -/
structure Personality where
  creativity : Rat
  danger : Rat
  humor : Rat
  description : String
deriving DecidableEq, Repr

/-- The fixed personality catalog `this.personalities` of `AIService`. -/
def personalities (key : String) : Option Personality :=
  if key = "default" then
    some { creativity := 7/10, danger := 5/10, humor := 3/10,
           description := "Balanced gameplay with moderate challenge" }
  else if key = "cautious" then
    some { creativity := 5/10, danger := 3/10, humor := 2/10,
           description := "Safe, predictable encounters with lower difficulty" }
  else if key = "experimental" then
    some { creativity := 9/10, danger := 6/10, humor := 5/10,
           description := "Creative, unpredictable scenarios with unique twists" }
  else if key = "reckless" then
    some { creativity := 8/10, danger := 9/10, humor := 4/10,
           description := "High-risk, high-reward encounters with intense challenges" }
  else none

/-- Property names `this.personalities[key]` finds on the prototype chain:
the `personalities` object literal inherits from `Object.prototype`, whose
standard properties (ECMAScript 20.1.3 plus the Annex B legacy accessors) are
all functions or objects, hence JS-truthy. -/
def objectProtoKeys : List String :=
  ["constructor", "hasOwnProperty", "isPrototypeOf", "propertyIsEnumerable",
   "toLocaleString", "toString", "valueOf", "__proto__", "__defineGetter__",
   "__defineSetter__", "__lookupGetter__", "__lookupSetter__"]

/-- JS truthiness of the lookup `this.personalities[key]`: truthy for the
four own catalog entries (objects) and for every property inherited from
`Object.prototype` (functions, and `Object.prototype` itself for
`__proto__`); undefined — falsy — for every other key. -/
def personalitiesLookupTruthy (key : String) : Bool :=
  (personalities key).isSome || decide (key ∈ objectProtoKeys)

/-- `AIService.setPersonality`: given the current personality key and the
requested key, returns the new current personality key.  The source sets
`this.personality = personality` whenever `this.personalities[personality]`
is truthy — for catalog entries and for `Object.prototype` property names
alike — and otherwise warns and sets `this.personality = 'default'`. -/
def setPersonality (current : String) (key : String) : String :=
  if personalitiesLookupTruthy key then key else
    -- console.warn branch: "Unknown personality: ..., using default"
    "default"

/-- C2 counterexample: the claim says `setPersonality('bogus')` leaves the
current personality unchanged, but starting from current personality
`reckless` the source resets it to `default`, which differs from the prior
value.  (`bogus` is not one of the four catalog entries, nor an
`Object.prototype` property name.) -/
theorem setPersonality_unknown_not_unchanged :
    personalities "bogus" = none ∧
    setPersonality "reckless" "bogus" ≠ "reckless" := by
  constructor
  · rfl
  · decide

/-- C2 (amended): for a key outside the four-entry catalog, the outcome of
`setPersonality` splits on the prototype chain: for a key that is not an
`Object.prototype` property name the lookup is falsy and the current
personality is reset to `"default"` (with a warning; unchanged only when it
already was `"default"`), while for an inherited `Object.prototype` property
name such as `constructor`, `toString` or `__proto__` the truthiness check
passes and the current personality is set to that key. -/
theorem setPersonality_unknown_resets_to_default (current key : String)
    (hcat : personalities key = none) :
    (key ∉ objectProtoKeys → setPersonality current key = "default") ∧
    (key ∈ objectProtoKeys → setPersonality current key = key) := by
  constructor
  · intro hproto
    unfold setPersonality personalitiesLookupTruthy
    simp [hcat, hproto]
  · intro hproto
    unfold setPersonality personalitiesLookupTruthy
    simp [hproto]

/-- C2 witness: the amended theorem applied at current = `reckless` with the
plain unknown key `bogus` (reset to `default`) and with the prototype-chain
key `constructor` (set to `constructor`). -/
theorem setPersonality_unknown_resets_to_default_witness :
    setPersonality "reckless" "bogus" = "default" ∧
    setPersonality "reckless" "constructor" = "constructor" :=
  ⟨(setPersonality_unknown_resets_to_default "reckless" "bogus"
      (by decide)).1 (by decide),
   (setPersonality_unknown_resets_to_default "reckless" "constructor"
      (by decide)).2 (by decide)⟩

/-! ### Store operations

Each operation mirrors a method of the `GameState` class and returns the new
store together with the list of change events it emits, in emission order.
`updateState` contributes its `state_update` event; the typed event of the
operation follows it, exactly as the two `notifyObservers` calls run in the
source. -/

/-- Options object accepted by `startNewGame`.  `playerCount` is absent or a
number; the source tests it for JS truthiness, so `some 0` behaves like
absent. -/
structure NewGameOptions where
  playerCount : Option Nat
  playerNames : Option (List String)
deriving DecidableEq, Repr

/-- The player name picked for index `i`:
`options.playerNames?.[i] || 'Player N'` (an absent entry or an empty string
falls back to the default, by JS truthiness). -/
def pickPlayerName (names : Option (List String)) (i : Nat) : String :=
  match names with
  | none => "Player " ++ toString (i + 1)
  | some ns =>
    match ns.get? i with
    | none => "Player " ++ toString (i + 1)
    | some nm => if nm = "" then "Player " ++ toString (i + 1) else nm

/-- `GameState.startNewGame(options)`. -/
def startNewGame (g : Store) (options : NewGameOptions) : Store × List Change :=
  let players :=
    match options.playerCount with
    | some n =>
      if n ≠ 0 then
        (List.range n).map (fun i =>
          { defaultPlayer with
              id := "player-" ++ toString (i + 1),
              name := pickPlayerName options.playerNames i })
      else [{ defaultPlayer with id := "player-1", name := "Player 1" }]
    | none => [{ defaultPlayer with id := "player-1", name := "Player 1" }]
  ({ g with state :=
      { g.state with
          gamePhase := "playing", currentTurn := 1, players := players,
          currentBoss := none, currentEncounter := none,
          location := some "Starting Village", inventory := [], quests := [],
          defeatedBosses := [] } },
   [Change.state_update, Change.game_started])

/-- The record returned by `saveGame`. -/
structure SaveData where
  version : String
  timestamp : Int
  state : StateTree
  gameData : GameData
deriving DecidableEq, Repr

/-- `GameState.saveGame()`; `Date.now()` is passed in as `now`. -/
def saveGame (g : Store) (now : Int) : SaveData × List Change :=
  ({ version := "1.0.0", timestamp := now, state := g.state,
     gameData := g.gameData },
   [Change.game_saved])

/-- `GameState.loadGame(saveData)`: throws (`none`) when handed a JS-falsy
blob, otherwise replaces state and catalog wholesale. -/
def loadGame (g : Store) (saveData : Option SaveData) :
    Option (Store × List Change) :=
  match saveData with
  | none => none
  | some sd => some ({ state := sd.state, gameData := sd.gameData },
                     [Change.game_loaded])

/-- `GameState.startBossEncounter(boss)`: a string argument is looked up in
the catalog (throwing, i.e. `none`, when absent); an object argument is used
directly. -/
def startBossEncounter (g : Store) (boss : String ⊕ Boss) :
    Option (Store × List Change) :=
  let bossData :=
    match boss with
    | Sum.inl id => g.gameData.bosses.find? (fun b => b.id = id)
    | Sum.inr b => some b
  match bossData with
  | none => none
  | some bd =>
    some ({ g with state :=
              { g.state with
                  gamePhase := "boss", currentBoss := some bd,
                  currentEncounter := none } },
      [Change.state_update, Change.boss_encounter_started])

/-- `GameState.startEncounter(encounter)`. -/
def startEncounter (g : Store) (encounter : Encounter) : Store × List Change :=
  ({ g with state :=
       { g.state with
           gamePhase := "encounter",
           currentEncounter := some encounter, currentBoss := none } },
   [Change.state_update, Change.encounter_started])

/-- Marks the first catalog boss with the given id as defeated
(`findIndex` + in-place flag write in `defeatBoss`); no boss is touched when
the id is absent. -/
def markDefeatedFirst : List Boss → String → List Boss
  | [], _ => []
  | b :: rest, id =>
    if b.id = id then { b with defeated := true } :: rest
    else b :: markDefeatedFirst rest id

/-- `GameState.defeatBoss()`: throws (`none`) without an active boss;
otherwise appends the boss id to `defeatedBosses`, marks the catalog entry,
and computes the victory condition over the catalog. -/
def defeatBoss (g : Store) : Option (Store × List Change) :=
  match g.state.currentBoss with
  | none => none
  | some defeatedB =>
    let newDefeatedBosses := g.state.defeatedBosses ++ [defeatedB.id]
    let bosses := markDefeatedFirst g.gameData.bosses defeatedB.id
    let allBossesDefeated := bosses.all (fun b => b.defeated)
    some ({ state :=
              { g.state with
                  gamePhase := if allBossesDefeated then "victory" else "playing",
                  currentBoss := none, defeatedBosses := newDefeatedBosses },
            gameData := { g.gameData with bosses := bosses } },
      [Change.state_update, Change.boss_defeated allBossesDefeated])

/-- `GameState.damageBoss(damage)`: throws (`none`) without an active boss;
clamps health at 0 and hands exact-zero health to `defeatBoss`. -/
def damageBoss (g : Store) (damage : Int) : Option (Store × List Change) :=
  match g.state.currentBoss with
  | none => none
  | some boss =>
    let boss' := { boss with health := max 0 (boss.health - damage) }
    if boss'.health ≤ 0 then
      defeatBoss { g with state := { g.state with currentBoss := some boss' } }
    else
      some ({ g with state := { g.state with currentBoss := some boss' } },
        [Change.state_update, Change.boss_damaged])

/-- Target zone of `playCard`. -/
inductive Zone where
  | battlefield
  | graveyard
deriving DecidableEq, Repr

/-- `player[zone]` read access. -/
def Player.zone (p : Player) : Zone → List Card
  | Zone.battlefield => p.battlefield
  | Zone.graveyard => p.graveyard

/-- `{...player, [zone]: cards}` write access. -/
def Player.setZone (p : Player) : Zone → List Card → Player
  | Zone.battlefield, cards => { p with battlefield := cards }
  | Zone.graveyard, cards => { p with graveyard := cards }

/-- The per-player transform `playCard` maps over `state.players`: matching
players have the card id filtered out of `hand` and the card appended to the
target zone; other players are untouched. -/
def playCardUpdate (playerId : String) (card : Card) (zone : Zone)
    (p : Player) : Player :=
  if p.id = playerId then
    let hand := p.hand.filter (fun c => c.id ≠ card.id)
    let targetZone := p.zone zone ++ [card]
    ({ p with hand := hand }).setZone zone targetZone
  else p

/-- `GameState.playCard(playerId, card, zone)`. -/
def playCard (g : Store) (playerId : String) (card : Card) (zone : Zone) :
    Store × List Change :=
  ({ g with state :=
      { g.state with
          players := g.state.players.map (playCardUpdate playerId card zone) } },
   [Change.state_update, Change.card_played])

/-- `GameState.addQuest(quest)`: the generated unique id
(`quest-${Date.now()}-${random}`) is passed in as `fresh`. -/
def addQuest (g : Store) (title objective : String) (rewards : List String)
    (fresh : String) : Store × List Change :=
  ({ g with state :=
      { g.state with quests := g.state.quests ++
          [{ id := fresh, title := title, objective := objective,
             rewards := rewards, status := "active", progress := 0 }] } },
   [Change.state_update, Change.quest_added])

/-- `GameState.changeLocation(location)`. -/
def changeLocation (g : Store) (location : String) : Store × List Change :=
  ({ g with state := { g.state with location := some location } },
   [Change.state_update, Change.location_changed])

/-- Partial settings object accepted by `updateSettings`; absent keys keep
their previous value under the JS object spread. -/
structure SettingsPatch where
  autoTapLands : Option Bool
  showCardPreviews : Option Bool
  soundVolume : Option Int
  difficulty : Option String
deriving DecidableEq, Repr

/-- `GameState.updateSettings(settings)`: `{...gameSettings, ...settings}`. -/
def updateSettings (g : Store) (s : SettingsPatch) : Store × List Change :=
  let old := g.state.gameSettings
  ({ g with state :=
      { g.state with gameSettings :=
          { autoTapLands := s.autoTapLands.getD old.autoTapLands,
            showCardPreviews := s.showCardPreviews.getD old.showCardPreviews,
            soundVolume := s.soundVolume.getD old.soundVolume,
            difficulty := s.difficulty.getD old.difficulty } } },
   [Change.state_update, Change.settings_updated])

/-- `GameState.resetGame()`: rebuilds the state tree (preserving only
`gameSettings`) and restores every catalog boss; emits a single `game_reset`
event (no `updateState` call). -/
def resetGame (g : Store) : Store × List Change :=
  ({ state :=
      { gamePhase := "menu", currentTurn := 0, players := [],
        currentBoss := none, currentEncounter := none, location := none,
        inventory := [], quests := [], defeatedBosses := [],
        gameSettings := g.state.gameSettings },
     gameData := { g.gameData with
                     bosses := g.gameData.bosses.map (fun b =>
                       { b with defeated := false, health := b.maxHealth }) } },
   [Change.game_reset])

/-- C7: `resetGame()` preserves the settings record while clearing players,
inventory, quests and the defeated set, and restores every catalog boss to
full health with its defeated flag cleared. -/
theorem resetGame_preserves_settings_clears_session (g : Store) :
    (resetGame g).1.state.gameSettings = g.state.gameSettings ∧
    (resetGame g).1.state.players = [] ∧
    (resetGame g).1.state.inventory = [] ∧
    (resetGame g).1.state.quests = [] ∧
    (resetGame g).1.state.defeatedBosses = [] ∧
    ∀ b ∈ (resetGame g).1.gameData.bosses,
      b.health = b.maxHealth ∧ b.defeated = false := by
  refine ⟨rfl, rfl, rfl, rfl, rfl, ?_⟩
  intro b hb
  simp only [resetGame, List.mem_map] at hb
  obtain ⟨b0, _, rfl⟩ := hb
  exact ⟨rfl, rfl⟩

/-- C7 witness: the theorem applied to the initial store, its boss clause
discharged at the first catalog boss. -/
theorem resetGame_preserves_settings_clears_session_witness :
    (resetGame initStore).1.state.gameSettings = initialSettings ∧
    ∀ b ∈ (resetGame initStore).1.gameData.bosses,
      b.health = b.maxHealth ∧ b.defeated = false :=
  ⟨(resetGame_preserves_settings_clears_session initStore).1,
   (resetGame_preserves_settings_clears_session initStore).2.2.2.2.2⟩

/-- C8: feeding the record returned by `saveGame` back into `loadGame`
reproduces the same state tree and catalog; in particular `currentTurn` and
`location` round-trip unchanged. -/
theorem saveGame_loadGame_round_trip (g : Store) (now : Int) :
    ∃ r, loadGame g (some (saveGame g now).1) = some r ∧
      r.1.state = g.state ∧
      r.1.gameData = g.gameData ∧
      r.1.state.currentTurn = g.state.currentTurn ∧
      r.1.state.location = g.state.location := by
  exact ⟨_, rfl, rfl, rfl, rfl, rfl⟩

/-- C8 witness: the round trip evaluated on the initial store. -/
theorem saveGame_loadGame_round_trip_witness :
    ∃ r, loadGame initStore (some (saveGame initStore 0).1) = some r ∧
      r.1.state = initStore.state ∧
      r.1.gameData = initStore.gameData ∧
      r.1.state.currentTurn = initStore.state.currentTurn ∧
      r.1.state.location = initStore.state.location :=
  saveGame_loadGame_round_trip initStore 0

/-- C9: `startNewGame` with an options object lacking `playerCount` creates
exactly one player with id `player-1` and name `Player 1`, and still sets the
phase to `playing` and the turn counter to 1. -/
theorem startNewGame_no_playerCount_single_player (g : Store)
    (names : Option (List String)) :
    (startNewGame g { playerCount := none, playerNames := names }).1.state.players =
      [{ defaultPlayer with id := "player-1", name := "Player 1" }] ∧
    (startNewGame g { playerCount := none, playerNames := names }).1.state.gamePhase =
      "playing" ∧
    (startNewGame g { playerCount := none, playerNames := names }).1.state.currentTurn =
      1 := by
  exact ⟨rfl, rfl, rfl⟩

/-- C3: with an active boss whose health satisfies the documented invariant,
`damageBoss` keeps any surviving boss's health within `[0, maxHealth]` for
nonnegative damage; and for any damage at least the current health the boss is
defeated: the phase moves away from `boss`, the active boss is cleared, and
the boss id is appended to `defeatedBosses` exactly once. -/
theorem damageBoss_clamps_and_defeats_once (g : Store) (b : Boss) (d : Int)
    (hb : g.state.currentBoss = some b)
    (h0 : 0 ≤ b.health) (hmax : b.health ≤ b.maxHealth) :
    (0 ≤ d → ∀ r, damageBoss g d = some r →
      ∀ b', r.1.state.currentBoss = some b' →
        0 ≤ b'.health ∧ b'.health ≤ b'.maxHealth) ∧
    (b.health ≤ d → ∃ r, damageBoss g d = some r ∧
      r.1.state.gamePhase ≠ "boss" ∧
      r.1.state.currentBoss = none ∧
      r.1.state.defeatedBosses.count b.id =
        g.state.defeatedBosses.count b.id + 1 ∧
      (b.id ∉ g.state.defeatedBosses →
        r.1.state.defeatedBosses.count b.id = 1)) := by
  constructor
  · intro hd r hr b' hb'
    simp only [damageBoss, hb] at hr
    by_cases hld : max 0 (b.health - d) ≤ 0
    · rw [if_pos hld] at hr
      simp only [defeatBoss] at hr
      have hr2 := (Option.some.inj hr).symm
      subst hr2
      simp at hb'
    · rw [if_neg hld] at hr
      have hr2 := (Option.some.inj hr).symm
      subst hr2
      dsimp only at hb'
      have hb2 := (Option.some.inj hb').symm
      subst hb2
      refine ⟨le_max_left 0 _, ?_⟩
      have hdm : b.health - d ≤ b.maxHealth := by omega
      simp only [max_le_iff]
      exact ⟨le_trans h0 hmax, hdm⟩
  · intro hd
    simp only [damageBoss, hb]
    have hzero : max 0 (b.health - d) = 0 := by
      have : b.health - d ≤ 0 := by omega
      exact max_eq_left this
    rw [hzero]
    rw [if_pos (le_refl 0)]
    simp only [defeatBoss]
    refine ⟨_, rfl, ?_, rfl, ?_, ?_⟩
    · by_cases hall :
        (markDefeatedFirst g.gameData.bosses b.id).all (fun bb => bb.defeated)
      · simp only [hall, if_true]; decide
      · simp only [hall, if_false]; decide
    · simp [List.count_append]
    · intro hnot
      have : g.state.defeatedBosses.count b.id = 0 :=
        List.count_eq_zero.mpr hnot
      simp [List.count_append, this]

/-- A store in a boss fight against the first catalog boss. -/
def bossFightStore : Store :=
  { initStore with state :=
      { initStore.state with gamePhase := "boss", currentBoss := some vorthak } }

/-- C3 witness: the theorem applied with 150 damage against Vorthak (health
150). -/
theorem damageBoss_clamps_and_defeats_once_witness :
    ∃ r, damageBoss bossFightStore 150 = some r ∧
      r.1.state.gamePhase ≠ "boss" ∧
      r.1.state.currentBoss = none ∧
      r.1.state.defeatedBosses.count vorthak.id =
        bossFightStore.state.defeatedBosses.count vorthak.id + 1 ∧
      (vorthak.id ∉ bossFightStore.state.defeatedBosses →
        r.1.state.defeatedBosses.count vorthak.id = 1) :=
  (damageBoss_clamps_and_defeats_once bossFightStore vorthak 150 rfl
    (by decide) (by decide)).2 (by decide)

/-- C6: `playCard` maps `playCardUpdate` over the player list; for the player
whose id matches, when the target zone does not already hold the card id (the
documented at-most-one-zone invariant), the updated player's hand no longer
contains the card id and the target zone holds exactly one entry with that
id, namely the played card. -/
theorem playCard_moves_identity (g : Store) (playerId : String) (card : Card)
    (zone : Zone) :
    (playCard g playerId card zone).1.state.players =
      g.state.players.map (playCardUpdate playerId card zone) ∧
    ∀ p : Player, p.id = playerId →
      (∀ c ∈ p.zone zone, c.id ≠ card.id) →
      (∀ c ∈ (playCardUpdate playerId card zone p).hand, c.id ≠ card.id) ∧
      ((playCardUpdate playerId card zone p).zone zone).filter
        (fun c => c.id = card.id) = [card] := by
  refine ⟨rfl, ?_⟩
  intro p hp hzone
  have hhand :
      (playCardUpdate playerId card zone p).hand =
        p.hand.filter (fun c => c.id ≠ card.id) := by
    simp only [playCardUpdate, if_pos hp]
    cases zone <;> rfl
  have hz :
      (playCardUpdate playerId card zone p).zone zone =
        p.zone zone ++ [card] := by
    simp only [playCardUpdate, if_pos hp]
    cases zone <;> rfl
  constructor
  · intro c hc
    rw [hhand] at hc
    have := List.of_mem_filter hc
    simpa using this
  · rw [hz, List.filter_append]
    have hnil : (p.zone zone).filter (fun c => c.id = card.id) = [] := by
      rw [List.filter_eq_nil_iff]
      intro c hc
      simpa using hzone c hc
    rw [hnil]
    simp

/-- A card used by concrete witnesses. -/
def witnessCard : Card := { id := "card-1", name := "Chaos Bolt" }

/-- A player holding `witnessCard` in hand, used by concrete witnesses. -/
def witnessPlayer : Player :=
  { defaultPlayer with
      id := "player-1", name := "Player 1", hand := [witnessCard] }

/-- A store with `witnessPlayer` as its only player. -/
def witnessStore : Store :=
  { initStore with state :=
      { initStore.state with players := [witnessPlayer] } }

/-- C6 witness: the theorem applied to `witnessStore`, playing `witnessCard`
to the battlefield. -/
theorem playCard_moves_identity_witness :
    (∀ c ∈ (playCardUpdate "player-1" witnessCard Zone.battlefield
        witnessPlayer).hand, c.id ≠ witnessCard.id) ∧
    ((playCardUpdate "player-1" witnessCard Zone.battlefield
        witnessPlayer).zone Zone.battlefield).filter
      (fun c => c.id = witnessCard.id) = [witnessCard] :=
  (playCard_moves_identity witnessStore "player-1" witnessCard
    Zone.battlefield).2 witnessPlayer rfl (by decide)

/-! ### Observer dispatch

`notifyObservers(change)` runs `this.observers.forEach(callback =>
callback(this.state, change))`: every subscribed observer receives one call
per emitted event.  Observers are modelled by identifiers; a delivered call is
the pair (observer, change event). -/

/-- The calls one `notifyObservers(change)` invocation makes, in observer
registration order. -/
def notifyObserversCalls (observers : List Nat) (change : Change) :
    List (Nat × Change) :=
  observers.map (fun o => (o, change))

/-- All calls an operation emitting `events` makes, in emission order. -/
def dispatchAll (observers : List Nat) (events : List Change) :
    List (Nat × Change) :=
  events.flatMap (fun e => notifyObserversCalls observers e)

/-- Number of calls the observer `o` receives among `calls`. -/
def callsTo (o : Nat) (calls : List (Nat × Change)) : Nat :=
  (calls.filter (fun c => c.1 = o)).length

/-- One notification round calls `o` once per subscription of `o`. -/
theorem callsTo_notifyObserversCalls (observers : List Nat) (o : Nat)
    (change : Change) :
    callsTo o (notifyObserversCalls observers change) = observers.count o := by
  induction observers with
  | nil => rfl
  | cons a rest ih =>
    by_cases h : a = o
    · subst h
      simp only [notifyObserversCalls, callsTo, List.map_cons, List.filter_cons,
        List.count_cons] at *
      simp [ih]
    · simp only [notifyObserversCalls, callsTo, List.map_cons, List.filter_cons,
        List.count_cons] at *
      simp [ih, h]

/-- Across an operation, observer `o` is called once per subscription per
emitted event. -/
theorem callsTo_dispatchAll (observers : List Nat) (o : Nat)
    (events : List Change) :
    callsTo o (dispatchAll observers events) =
      events.length * observers.count o := by
  induction events with
  | nil => simp [dispatchAll, callsTo]
  | cons e rest ih =>
    simp only [dispatchAll, List.flatMap_cons, callsTo, List.filter_append,
      List.length_append, List.length_cons] at *
    rw [ih]
    have h1 := callsTo_notifyObserversCalls observers o e
    simp only [callsTo] at h1
    rw [h1]
    ring

/-- C5 counterexample: the claim says each subscribed observer is called
exactly once per mutating operation, receiving the operation's single typed
event; but `addQuest` on the initial store with one subscribed observer calls
that observer twice (once from `updateState` with `state_update`, once with
`quest_added`). -/
theorem addQuest_calls_observer_twice_cex :
    callsTo 0 (dispatchAll [0] (addQuest initStore "t" "o" [] "quest-1").2) = 2 ∧
    callsTo 0 (dispatchAll [0] (addQuest initStore "t" "o" [] "quest-1").2) ≠ 1 := by
  decide

/-- C5 (amended): every mutating store operation that goes through
`updateState` (`startNewGame`, `startEncounter`, `damageBoss`, `addQuest`,
`changeLocation`, `updateSettings`, ...) calls each observer subscribed once
exactly twice before returning: once with the generic `state_update` event
and once with the operation's typed change event, which is emitted exactly
once, after `state_update`. -/
theorem mutating_ops_call_each_observer_twice (g : Store)
    (observers : List Nat) (o : Nat) (hsub : observers.count o = 1)
    (options : NewGameOptions) (enc : Encounter) (title objective : String)
    (rewards : List String) (fresh : String) (loc : String)
    (patch : SettingsPatch) (d : Int) :
    (startNewGame g options).2 = [Change.state_update, Change.game_started] ∧
    callsTo o (dispatchAll observers (startNewGame g options).2) = 2 ∧
    (startEncounter g enc).2 = [Change.state_update, Change.encounter_started] ∧
    callsTo o (dispatchAll observers (startEncounter g enc).2) = 2 ∧
    (addQuest g title objective rewards fresh).2 =
      [Change.state_update, Change.quest_added] ∧
    callsTo o (dispatchAll observers
      (addQuest g title objective rewards fresh).2) = 2 ∧
    (changeLocation g loc).2 =
      [Change.state_update, Change.location_changed] ∧
    callsTo o (dispatchAll observers (changeLocation g loc).2) = 2 ∧
    (updateSettings g patch).2 =
      [Change.state_update, Change.settings_updated] ∧
    callsTo o (dispatchAll observers (updateSettings g patch).2) = 2 ∧
    (∀ r, damageBoss g d = some r →
      r.2.length = 2 ∧ r.2.head? = some Change.state_update ∧
      callsTo o (dispatchAll observers r.2) = 2) := by
  have key : ∀ events : List Change, events.length = 2 →
      callsTo o (dispatchAll observers events) = 2 := by
    intro events hlen
    rw [callsTo_dispatchAll, hlen, hsub]
  refine ⟨rfl, key _ rfl, rfl, key _ rfl, rfl, key _ rfl, rfl, key _ rfl,
    rfl, key _ rfl, ?_⟩
  intro r hr
  cases hcb : g.state.currentBoss with
  | none => simp [damageBoss, hcb] at hr
  | some b =>
    simp only [damageBoss, hcb] at hr
    by_cases hld : max 0 (b.health - d) ≤ 0
    · rw [if_pos hld] at hr
      simp only [defeatBoss] at hr
      have hr2 := (Option.some.inj hr).symm
      subst hr2
      exact ⟨rfl, rfl, key _ rfl⟩
    · rw [if_neg hld] at hr
      have hr2 := (Option.some.inj hr).symm
      subst hr2
      exact ⟨rfl, rfl, key _ rfl⟩

/-- C5 witness: the amended theorem applied to the initial store with the
single observer 0, extracting the `changeLocation` clause. -/
theorem mutating_ops_call_each_observer_twice_witness :
    callsTo 0 (dispatchAll [0] (changeLocation initStore "Town").2) = 2 :=
  (mutating_ops_call_each_observer_twice initStore [0] 0 (by decide)
    { playerCount := none, playerNames := none } { title := "", difficulty := 0 }
    "" "" [] "" "Town"
    { autoTapLands := none, showCardPreviews := none, soundVolume := none,
      difficulty := none } 0).2.2.2.2.2.2.2.1

/-! ### Defeating the whole catalog (C4) -/

/-- The ids of the three catalog bosses. -/
def catalogIds : List String :=
  ["vorthak-destroyer", "malachar-corrupted", "nethys-ancient"]

/-- Runs, for each id in order, `startBossEncounter(id)` followed by the
defeat transition (`defeatBoss`), propagating thrown errors as `none`. -/
def defeatSeq (g : Store) : List String → Option Store
  | [] => some g
  | id :: rest =>
    match startBossEncounter g (Sum.inl id) with
    | none => none
    | some (g1, _) =>
      match defeatBoss g1 with
      | none => none
      | some (g2, _) => defeatSeq g2 rest

/-- C4: from the initial store, defeating the three catalog bosses in any
order ends with phase `victory`; defeating any two of them (all but one), in
any order, ends with phase `playing`. -/
theorem defeat_catalog_victory_all_but_one_playing :
    (∀ ids, ids.Perm catalogIds →
      (defeatSeq initStore ids).map (fun s => s.state.gamePhase) =
        some "victory") ∧
    (∀ x ids, x ∈ catalogIds → ids.Perm (catalogIds.erase x) →
      (defeatSeq initStore ids).map (fun s => s.state.gamePhase) =
        some "playing") := by
  constructor
  · intro ids h
    have h' : ids ∈ catalogIds.permutations' := List.mem_permutations'.mpr h
    have e : catalogIds.permutations' =
        [["vorthak-destroyer", "malachar-corrupted", "nethys-ancient"],
         ["malachar-corrupted", "vorthak-destroyer", "nethys-ancient"],
         ["malachar-corrupted", "nethys-ancient", "vorthak-destroyer"],
         ["vorthak-destroyer", "nethys-ancient", "malachar-corrupted"],
         ["nethys-ancient", "vorthak-destroyer", "malachar-corrupted"],
         ["nethys-ancient", "malachar-corrupted", "vorthak-destroyer"]] := by
      decide
    rw [e] at h'
    fin_cases h' <;> decide
  · intro x ids hx h
    fin_cases hx
    · have h' : ids ∈ (catalogIds.erase "vorthak-destroyer").permutations' :=
        List.mem_permutations'.mpr h
      have e : (catalogIds.erase "vorthak-destroyer").permutations' =
          [["malachar-corrupted", "nethys-ancient"],
           ["nethys-ancient", "malachar-corrupted"]] := by decide
      rw [e] at h'
      fin_cases h' <;> decide
    · have h' : ids ∈ (catalogIds.erase "malachar-corrupted").permutations' :=
        List.mem_permutations'.mpr h
      have e : (catalogIds.erase "malachar-corrupted").permutations' =
          [["vorthak-destroyer", "nethys-ancient"],
           ["nethys-ancient", "vorthak-destroyer"]] := by decide
      rw [e] at h'
      fin_cases h' <;> decide
    · have h' : ids ∈ (catalogIds.erase "nethys-ancient").permutations' :=
        List.mem_permutations'.mpr h
      have e : (catalogIds.erase "nethys-ancient").permutations' =
          [["vorthak-destroyer", "malachar-corrupted"],
           ["malachar-corrupted", "vorthak-destroyer"]] := by decide
      rw [e] at h'
      fin_cases h' <;> decide

/-- C4 witness: the theorem applied to the catalog order itself and to the
pair left after erasing Vorthak. -/
theorem defeat_catalog_victory_all_but_one_playing_witness :
    (defeatSeq initStore catalogIds).map (fun s => s.state.gamePhase) =
      some "victory" ∧
    (defeatSeq initStore ["malachar-corrupted", "nethys-ancient"]).map
      (fun s => s.state.gamePhase) = some "playing" :=
  ⟨defeat_catalog_victory_all_but_one_playing.1 catalogIds (List.Perm.refl _),
   defeat_catalog_victory_all_but_one_playing.2 "vorthak-destroyer"
     ["malachar-corrupted", "nethys-ancient"] (by decide)
     (by decide)⟩

/-! ### Quest giver selection (C10) -/

/-- NPC entry of the fixed `questGivers` catalog in `generateQuestGiver`. -/
structure QuestGiver where
  name : String
  npcType : String
  trustworthy : Rat
deriving DecidableEq, Repr

/-- The fixed quest giver catalog of `AIService.generateQuestGiver`. -/
def questGivers : List QuestGiver :=
  [ { name := "Elder Sage Meridian", npcType := "wizard", trustworthy := 9/10 },
    { name := "Captain Ironheart", npcType := "warrior", trustworthy := 8/10 },
    { name := "Mysterious Stranger", npcType := "rogue", trustworthy := 4/10 },
    { name := "Village Elder", npcType := "civilian", trustworthy := 95/100 },
    { name := "Shadowy Figure", npcType := "unknown", trustworthy := 3/10 } ]

/-- `AIService.generateQuestGiver(personality)`: dangerous personalities draw
`questGivers[floor(random*5)]`; others draw index `floor(random*3)` from the
catalog filtered by `trustworthy > 0.7`.  The two random indices are passed in
as `j5` and `j3`; the JS expressions always satisfy `j5 < 5` and `j3 < 3`. -/
def generateQuestGiver (p : Personality) (j5 j3 : Nat) : Option QuestGiver :=
  if p.danger > 7/10 then questGivers.get? j5
  else (questGivers.filter (fun qg => qg.trustworthy > 7/10)).get? j3

/-- The trustworthiness filter keeps exactly the wizard, the warrior and the
civilian of the catalog. -/
theorem questGivers_filter_eq :
    questGivers.filter (fun qg => qg.trustworthy > 7/10) =
      [ { name := "Elder Sage Meridian", npcType := "wizard",
          trustworthy := 9/10 },
        { name := "Captain Ironheart", npcType := "warrior",
          trustworthy := 8/10 },
        { name := "Village Elder", npcType := "civilian",
          trustworthy := 95/100 } ] := by
  have h1 : ((9:Rat)/10 > 7/10) := by norm_num
  have h2 : ((8:Rat)/10 > 7/10) := by norm_num
  have h3 : ¬ ((4:Rat)/10 > 7/10) := by norm_num
  have h4 : ((95:Rat)/100 > 7/10) := by norm_num
  have h5 : ¬ ((3:Rat)/10 > 7/10) := by norm_num
  simp [questGivers, List.filter_cons, h1, h2, h3, h4, h5]

/-- C10: the trustworthiness filter keeps exactly the three NPCs Elder Sage
Meridian, Captain Ironheart and Village Elder, so the hard-coded index in
0..2 is always in bounds and `generateQuestGiver` never returns `undefined`:
for danger ≤ 0.7 it returns one of those three, for danger > 0.7 one of the
five catalog entries. -/
theorem generateQuestGiver_never_undefined :
    (questGivers.filter (fun qg => qg.trustworthy > 7/10)).map
      (fun qg => qg.name) =
      ["Elder Sage Meridian", "Captain Ironheart", "Village Elder"] ∧
    ∀ (p : Personality) (j5 j3 : Nat), j5 < 5 → j3 < 3 →
      ∃ qg, generateQuestGiver p j5 j3 = some qg ∧
        (p.danger > 7/10 → qg ∈ questGivers) ∧
        (¬ p.danger > 7/10 →
          qg ∈ questGivers.filter (fun qg => qg.trustworthy > 7/10) ∧
          qg.trustworthy > 7/10) := by
  constructor
  · rw [questGivers_filter_eq]; rfl
  · intro p j5 j3 h5 h3
    by_cases hd : p.danger > 7/10
    · have hlen : j5 < questGivers.length := by
        simpa [questGivers] using h5
      refine ⟨questGivers.get ⟨j5, hlen⟩, ?_, ?_, ?_⟩
      · simp [generateQuestGiver, hd, List.get?_eq_get hlen]
      · intro _; exact List.get_mem _ _ _
      · intro h; exact absurd hd h
    · have hlen :
          j3 < (questGivers.filter (fun qg => qg.trustworthy > 7/10)).length := by
        rw [questGivers_filter_eq]
        simpa using h3
      refine ⟨(questGivers.filter (fun qg => qg.trustworthy > 7/10)).get
          ⟨j3, hlen⟩, ?_, ?_, ?_⟩
      · simp [generateQuestGiver, hd, List.get?_eq_get hlen]
      · intro h; exact absurd h hd
      · intro _
        have hmem : (questGivers.filter (fun qg => qg.trustworthy > 7/10)).get
            ⟨j3, hlen⟩ ∈ questGivers.filter (fun qg => qg.trustworthy > 7/10) :=
          List.get_mem _ _ _
        refine ⟨hmem, ?_⟩
        have hdec := List.of_mem_filter hmem
        exact of_decide_eq_true hdec

/-- The `cautious` trait vector, as a concrete personality for witnesses. -/
def cautiousPersonality : Personality :=
  { creativity := 5/10, danger := 3/10, humor := 2/10,
    description := "Safe, predictable encounters with lower difficulty" }

/-- C10 witness: the theorem applied to the cautious trait vector (danger
0.3) with the extreme in-range indices 4 and 2. -/
theorem generateQuestGiver_never_undefined_witness :
    ∃ qg, generateQuestGiver cautiousPersonality 4 2 = some qg ∧
      (cautiousPersonality.danger > 7/10 → qg ∈ questGivers) ∧
      (¬ cautiousPersonality.danger > 7/10 →
        qg ∈ questGivers.filter (fun qg => qg.trustworthy > 7/10) ∧
        qg.trustworthy > 7/10) :=
  generateQuestGiver_never_undefined.2 cautiousPersonality 4 2
    (by norm_num) (by norm_num)

/-! ### Template generator (`PerchanceGenerator`, C1)

`generate` and `processNestedGenerators` are mutually recursive in the
source: `generate` selects an item and calls `processNestedGenerators`, whose
substitution loop calls `generate` for every registered placeholder.  The
10-iteration bound (`maxIterations`) is local to each `processNestedGenerators`
call and does not bound the recursion depth.  The embedding indexes the
mutual recursion by a fuel counter: `none` means the fuel was exhausted, so
`= none` for every fuel amount states that the source recursion never
returns.  Randomness (`Math.floor(Math.random() * items.length)`) is modelled
by a stream `rand` of naturals read at a running position `k` and reduced
modulo the item count. -/

/-- The generator table (`this.generators`); later entries of the same name
shadow earlier ones, matching `Map.set` followed by `Map.get` on first
match. -/
abbrev Gens := List (String × List String)

/-- `this.generators.get(name)` / `.has(name)` combined lookup. -/
def lookupGen (gens : Gens) (name : String) : Option (List String) :=
  (gens.find? (fun e => e.1 = name)).map (fun e => e.2)

/-- `selectRandomItem(items)`: the sentinel on an empty pool, otherwise the
uniformly selected item `items[Math.floor(Math.random() * items.length)]`. -/
def selectRandomItem (rand : Nat → Nat) (k : Nat) (items : List String) :
    String :=
  if items.length = 0 then "Empty generator"
  else items.getD (rand k % items.length) ""

/-- First match of the regex `\[([^\]]+)\]`: returns
(text before the match, placeholder name, text after the match), so that the
scanned text is `pre ++ '[' :: name ++ ']' :: post` with `name` nonempty and
free of `]`. -/
def firstMatch : List Char → Option (List Char × List Char × List Char)
  | [] => none
  | c :: rest =>
    let fallback :=
      (firstMatch rest).map (fun r => (c :: r.1, r.2.1, r.2.2))
    if c = '[' then
      match rest.span (fun ch => ch ≠ ']') with
      | (name, ']' :: post) =>
        if name.isEmpty then fallback else some ([], name, post)
      | _ => fallback
    else fallback

/-- `String.prototype.replace` with a string pattern: replaces the first
occurrence of `target` (the whole text is searched, as in
`result.replace(match[0], replacement)`). -/
def replaceFirst : List Char → List Char → List Char → List Char
  | [], _, _ => []
  | c :: rest, target, repl =>
    if target.isPrefixOf (c :: rest) then repl ++ (c :: rest).drop target.length
    else c :: replaceFirst rest target repl

/-- Outcome of a `generate` / `processNestedGenerators` call: a produced text
with the next random-stream position, or the thrown
`Generator '...' not found` error. -/
inductive GenOut where
  | ok (text : List Char) (k : Nat)
  | err
deriving DecidableEq, Repr

mutual

/-- `PerchanceGenerator.generate(name)` (history recording omitted: it never
feeds back into generation).  `none` = fuel exhausted. -/
def generateF (gens : Gens) (rand : Nat → Nat) :
    Nat → Nat → String → Option GenOut
  | 0, _, _ => none
  | fuel + 1, k, name =>
    match lookupGen gens name with
    | none => some GenOut.err
    | some items =>
      processLoopF gens rand fuel (k + 1) (selectRandomItem rand k items).data 0 0

/-- The `while` loop of `processNestedGenerators`, carrying the current
`result`, the regex `lastIndex` and the `iterations` counter.  A registered
placeholder is expanded by a recursive `generate` call, substituted by a
first-occurrence replace, and the regex restarts from 0; an unregistered one
leaves the text alone and scanning resumes after it; both count one
iteration against `maxIterations = 10`. -/
def processLoopF (gens : Gens) (rand : Nat → Nat) :
    Nat → Nat → List Char → Nat → Nat → Option GenOut
  | 0, _, _, _, _ => none
  | fuel + 1, k, result, lastIdx, iters =>
    match firstMatch (result.drop lastIdx) with
    | none => some (GenOut.ok result k)
    | some (pre, name, _post) =>
      if iters < 10 then
        if (lookupGen gens (String.mk name)).isSome then
          match generateF gens rand fuel k (String.mk name) with
          | none => none
          | some GenOut.err => some GenOut.err
          | some (GenOut.ok rep k2) =>
            processLoopF gens rand fuel k2
              (replaceFirst result ('[' :: name ++ [']']) rep) 0 (iters + 1)
        else
          processLoopF gens rand fuel k result
            (lastIdx + pre.length + name.length + 2) (iters + 1)
      else some (GenOut.ok result k)

end

/-- The generator table after `addGenerator('self', { items: ['[self]'] })`:
a generator whose single item references the generator itself. -/
def selfGens : Gens := [("self", ["[self]"])]

/-- A terminating sanity check of the embedding: a one-item generator without
placeholders produces its item (with two units of fuel). -/
theorem generateF_flat_example (rand : Nat → Nat) (k : Nat) :
    generateF [("color", ["red"])] rand 2 k "color" =
      some (GenOut.ok "red".data (k + 1)) := by
  simp [generateF, processLoopF, lookupGen, selectRandomItem, Nat.mod_one,
    firstMatch]

/-- Looking `self` up in the self-referential table. -/
theorem lookupGen_selfGens : lookupGen selfGens "self" = some ["[self]"] := rfl

/-- Selecting from a one-item pool is deterministic whatever the random
stream holds: the index is reduced modulo 1. -/
theorem selectRandomItem_single (rand : Nat → Nat) (k : Nat) (s : String) :
    selectRandomItem rand k [s] = s := by
  simp [selectRandomItem, Nat.mod_one]

/-- The first regex match inside the item `[self]` is the whole item, with
placeholder name `self`. -/
theorem firstMatch_selfItem :
    firstMatch ['[', 's', 'e', 'l', 'f', ']'] =
      some ([], ['s', 'e', 'l', 'f'], []) := rfl

/-- Rebuilding the matched name as a string gives back `self`. -/
theorem stringMk_self : String.mk ['s', 'e', 'l', 'f'] = "self" := rfl

/-- C1: expansion of the self-referential generator never returns, for every
fuel bound: `generate('self')` picks the item `[self]`, whose first match is
the registered name `self`, so `processNestedGenerators` immediately calls
`generate('self')` again — the 10-round cap never applies to the recursion
depth, contradicting the claimed termination with the literal `[self]` left
in the output. -/
theorem generate_self_reference_diverges (rand : Nat → Nat) (fuel k : Nat) :
    generateF selfGens rand fuel k "self" = none := by
  induction fuel using Nat.strong_induction_on generalizing k with
  | _ fuel ih =>
    match fuel with
    | 0 => simp [generateF]
    | 1 =>
      simp only [generateF, lookupGen_selfGens]
      rw [selectRandomItem_single]
      simp only [processLoopF]
    | (f + 2) =>
      have hself : generateF selfGens rand f (k + 1) "self" = none :=
        ih f (by omega) (k + 1)
      simp only [generateF, lookupGen_selfGens]
      rw [selectRandomItem_single]
      simp only [processLoopF, List.drop_zero, firstMatch_selfItem,
        stringMk_self, lookupGen_selfGens, Option.isSome_some, if_true, hself]
      norm_num
